import Mathlib

/-!
Verification of the typed value/filter engine in `data_browser/types.py`.

The development shallowly embeds the engine: each Python `_parse` /
`_get_formatter` implementation becomes a total Lean function returning
`Except String Value`, where `.error e` stands for a raised exception whose
rendered message is `e`; the public `parse` entry point becomes a wrapper
that converts an exception into the `(None, message)` pair exactly as
`BaseType.parse` does.  Machine details that the engine never relies on are
modelled as follows and noted at each definition: Python numbers (ints and
floats) are exact fractions, and the external libraries (dateutil's fuzzy
date guesser, the stdlib json codec, Django helpers) are modelled on the
input fragments the engine exercises.
-/

/-- Exact stand-in for Python numbers (ints and floats together).  Stored as
an unnormalised numerator/denominator pair; comparisons cross-multiply.  The
decimal literals exercised here are far from any binary rounding boundary,
so exact comparison agrees with IEEE float comparison on them. -/
structure PyNum where
  num : Int
  den : Nat
deriving DecidableEq

/-- Python `==` on two numbers. -/
def pyNumEq (a b : PyNum) : Bool :=
  decide (a.num * (b.den : Int) = b.num * (a.den : Int))

/-- Python `>` on two numbers. -/
def pyNumGt (a b : PyNum) : Bool :=
  decide (a.num * (b.den : Int) > b.num * (a.den : Int))

/-- Python `datetime.datetime` (naive): the engine only builds naive
datetimes from `timezone.now()` and arithmetic on them. -/
structure PyDateTime where
  year : Nat
  month : Nat
  day : Nat
  hour : Nat
  minute : Nat
  second : Nat
  microsecond : Nat
deriving DecidableEq

/-- Python `datetime.date`, produced by `datetime.date()` in `DateType`. -/
structure PyDate where
  year : Nat
  month : Nat
  day : Nat
deriving DecidableEq

/-- Python runtime values flowing through the engine: filter inputs are
`str`, json produces `None`/`bool`/numbers/`str`/lists, the date types
produce datetimes and dates, durations are `timedelta`s (total
microseconds). -/
inductive Value where
  | null
  | bool (b : Bool)
  | num (q : PyNum)
  | str (s : String)
  | list (elems : List Value)
  | dt (d : PyDateTime)
  | date (d : PyDate)
  | dur (microseconds : Int)

mutual

/-- Python `==` between engine values, including the `bool`/number
cross-type equality (`True == 1`); other cross-type comparisons are
unequal. -/
def pyEqV : Value → Value → Bool
  | .null, .null => true
  | .bool a, .bool b => a == b
  | .bool a, .num q => pyNumEq ⟨if a then 1 else 0, 1⟩ q
  | .num q, .bool b => pyNumEq q ⟨if b then 1 else 0, 1⟩
  | .num a, .num b => pyNumEq a b
  | .str a, .str b => a == b
  | .list a, .list b => pyEqListV a b
  | .dt a, .dt b => a == b
  | .date a, .date b => a == b
  | .dur a, .dur b => a == b
  | _, _ => false

/-- Python `==` on lists of values, elementwise. -/
def pyEqListV : List Value → List Value → Bool
  | [], [] => true
  | a :: as', b :: bs' => pyEqV a b && pyEqListV as' bs'
  | _, _ => false

end

/-- Python truthiness of engine values. -/
def pyTruthy : Value → Bool
  | .null => false
  | .bool b => b
  | .num q => decide (q.num ≠ 0)
  | .str s => s ≠ ""
  | .list l => !l.isEmpty
  | .dt _ => true
  | .date _ => true
  | .dur m => decide (m ≠ 0)

/-- Python `str.lower()` (the engine only lowercases ASCII clauses). -/
def pyLower (s : String) : String := ⟨s.data.map Char.toLower⟩

/-- Python `str.strip()`: drop leading and trailing whitespace. -/
def pyStrip (s : String) : String :=
  ⟨((s.data.dropWhile Char.isWhitespace).reverse.dropWhile Char.isWhitespace).reverse⟩

/-- Helper for `str.split()` with no separator: accumulate non-space runs. -/
def splitWSAux : List Char → List Char → List String
  | [], acc => if acc.isEmpty then [] else [⟨acc.reverse⟩]
  | c :: rest, acc =>
    if c.isWhitespace then
      if acc.isEmpty then splitWSAux rest []
      else ⟨acc.reverse⟩ :: splitWSAux rest []
    else splitWSAux rest (c :: acc)

/-- Python `str.split()` with no argument: split on whitespace runs,
discarding empty pieces. -/
def pySplitWS (s : String) : List String := splitWSAux s.data []

/-- Numeric value of a (non-empty) digit run, as Python `int()` of it. -/
def digitsToNat (cs : List Char) : Nat :=
  cs.foldl (fun acc c => acc * 10 + (c.toNat - 48)) 0

/-- Python `msg[0].upper() + msg[1:]` from `BaseType.parse`. -/
def capFirst (s : String) : String :=
  match s.data with
  | [] => ""
  | c :: cs => ⟨c.toUpper :: cs⟩

/-- The `BaseType.parse` wrapper: catch every exception and return
`(None, message)` with the message's first letter upper-cased; an empty
message is replaced by the exception's repr (`str(e) if str(e) else
repr(e)`), modelled by the non-empty placeholder repr text. -/
def pyParseWrap (r : Except String Value) : Option Value × Option String :=
  match r with
  | .ok v => (some v, none)
  | .error e => (none, some (capFirst (if e = "" then "Exception()" else e)))

/-- Gregorian leap-year rule, as Python `calendar.isleap`. -/
def isLeapYear (y : Nat) : Bool :=
  y % 4 == 0 && (y % 100 != 0 || y % 400 == 0)

/-- Number of days in a month, as `calendar.monthrange(y, m)[1]` for a
valid month number. -/
def monthLen (y m : Nat) : Nat :=
  match m with
  | 1 => 31
  | 2 => if isLeapYear y then 29 else 28
  | 3 => 31
  | 4 => 30
  | 5 => 31
  | 6 => 30
  | 7 => 31
  | 8 => 31
  | 9 => 30
  | 10 => 31
  | 11 => 30
  | 12 => 31
  | _ => 0

/-- Days in the months of year `y` strictly before month `m`. -/
def daysBeforeMonth (y m : Nat) : Nat :=
  (List.range (m - 1)).foldl (fun acc i => acc + monthLen y (i + 1)) 0

/-- Days from 0001-01-01 to the given proleptic-Gregorian date, i.e.
Python `date.toordinal() - 1`. -/
def daysSinceEpoch (y m d : Nat) : Nat :=
  365 * (y - 1) + (y - 1) / 4 - (y - 1) / 100 + (y - 1) / 400
    + daysBeforeMonth y m + (d - 1)

/-- Inverse of `daysSinceEpoch` (the standard era/year-of-era civil
calendar algorithm, shifted so day 0 is 0001-01-01). -/
def dateFromDays (z : Nat) : PyDate :=
  let n := z + 306
  let era := n / 146097
  let doe := n % 146097
  let yoe := (doe - doe / 1460 + doe / 36524 - doe / 146096) / 365
  let doy := doe - (365 * yoe + yoe / 4 - yoe / 100)
  let mp := (5 * doy + 2) / 153
  let d := doy - (153 * mp + 2) / 5 + 1
  let m := if mp < 10 then mp + 3 else mp - 9
  let y := yoe + era * 400 + (if m ≤ 2 then 1 else 0)
  ⟨y, m, d⟩

/-- Python `datetime.weekday()`: Monday is 0.  0001-01-01 was a Monday. -/
def weekdayOfDays (z : Nat) : Nat := z % 7

/-- Microseconds in one day. -/
def microsPerDay : Nat := 86400000000

/-- Microsecond-of-day of a datetime's time part. -/
def microOfDay (t : PyDateTime) : Nat :=
  ((t.hour * 60 + t.minute) * 60 + t.second) * 1000000 + t.microsecond

/-- Python `datetime + timedelta(microseconds=delta)`.  When the delta is
zero the datetime is returned unchanged (Python returns an equal value;
this avoids a needless ordinal round-trip).  Falling outside
`datetime.min .. datetime.max` raises `OverflowError: date value out of
range` exactly as Python does. -/
def addDeltaMicros (t : PyDateTime) (delta : Int) : Except String PyDateTime :=
  if delta = 0 then .ok t
  else
    let total : Int :=
      ((daysSinceEpoch t.year t.month t.day * microsPerDay + microOfDay t : Nat) : Int) + delta
    if total < 0 then .error "date value out of range"
    else
      let n := total.toNat
      let zd := n / microsPerDay
      if zd > 3652058 then .error "date value out of range"
      else
        let r := n % microsPerDay
        let d := dateFromDays zd
        let rs := r / 1000000
        let us := r % 1000000
        let mins := rs / 60
        let ss := rs % 60
        .ok ⟨d.year, d.month, d.day, mins / 60, mins % 60, ss, us⟩

/-- Argument record of a `dateutil.relativedelta.relativedelta` call as the
engine builds them: relative plural fields (weeks already folded into
`days`, as `__init__` does), absolute singular fields, and the weekday
selector `(weekday number, n)`. -/
structure RelDelta where
  years : Int := 0
  months : Int := 0
  days : Int := 0
  hours : Int := 0
  minutes : Int := 0
  seconds : Int := 0
  microseconds : Int := 0
  year : Option Nat := none
  month : Option Nat := none
  day : Option Nat := none
  hour : Option Nat := none
  minute : Option Nat := none
  second : Option Nat := none
  microsecond : Option Nat := none
  weekday : Option (Nat × Int) := none

/-- Python's symmetric `divmod`-with-sign step used by
`relativedelta._fix`: returns `(remainder, carry)` both carrying the sign
of `x`. -/
def relFixPair (x : Int) (base : Nat) : Int × Int :=
  let a := x.natAbs
  if x ≥ 0 then ((a % base : Nat), (a / base : Nat))
  else (-((a % base : Nat) : Int), -((a / base : Nat) : Int))

/-- The carry normalisation `relativedelta._fix` performs on the relative
fields (microseconds into seconds into minutes into hours into days, and
months into years). -/
def relFix (r : RelDelta) : RelDelta :=
  let pu := if r.microseconds.natAbs > 999999 then relFixPair r.microseconds 1000000
            else (r.microseconds, 0)
  let s0 := r.seconds + pu.2
  let ps := if s0.natAbs > 59 then relFixPair s0 60 else (s0, 0)
  let m0 := r.minutes + ps.2
  let pm := if m0.natAbs > 59 then relFixPair m0 60 else (m0, 0)
  let h0 := r.hours + pm.2
  let ph := if h0.natAbs > 23 then relFixPair h0 24 else (h0, 0)
  let mo0 := r.months
  let pmo := if mo0.natAbs > 11 then relFixPair mo0 12 else (mo0, 0)
  { r with
    microseconds := pu.1, seconds := ps.1, minutes := pm.1,
    hours := ph.1, days := r.days + ph.2,
    months := pmo.1, years := r.years + pmo.2 }

/-- `relativedelta(**{field + "s": n})` for a relative (plural) clause:
build the single-field record and apply `_fix`; `weeks` folds into
`days`. -/
def relOfPlural (arg : String) (n : Int) : RelDelta :=
  relFix (match arg with
    | "year" => { years := n }
    | "month" => { months := n }
    | "day" => { days := n }
    | "week" => { days := 7 * n }
    | "hour" => { hours := n }
    | "minute" => { minutes := n }
    | "second" => { seconds := n }
    | _ => { microseconds := n })

/-- `relativedelta(**{field: n})` for an absolute (`=`) clause. -/
def relOfAbs (arg : String) (n : Nat) : RelDelta :=
  match arg with
  | "year" => { year := some n }
  | "month" => { month := some n }
  | "day" => { day := some n }
  | "hour" => { hour := some n }
  | "minute" => { minute := some n }
  | "second" => { second := some n }
  | _ => { microsecond := some n }

/-- Python `datetime + relativedelta`, following
`relativedelta.__radd__`: absolute year/month with relative year/month
arithmetic and end-of-month day clamping, a `datetime.replace` (which
validates every field), then a `timedelta` addition, then the weekday
adjustment.  An out-of-range absolute month reaches
`calendar.monthrange`, whose `IllegalMonthError` message is preserved. -/
def dtAddRel (t : PyDateTime) (r : RelDelta) : Except String PyDateTime :=
  let yearI : Int := ((r.year.getD t.year : Nat) : Int) + r.years
  let month0 : Int := ((r.month.getD t.month : Nat) : Int)
  let p :=
    if r.months ≠ 0 then
      let m1 := month0 + r.months
      if m1 > 12 then (yearI + 1, m1 - 12)
      else if m1 < 1 then (yearI - 1, m1 + 12)
      else (yearI, m1)
    else (yearI, month0)
  let yearA := p.1
  let monthA := p.2
  if monthA < 1 ∨ monthA > 12 then
    .error ("bad month number " ++ toString monthA ++ "; must be 1-12")
  else
    let dayA : Nat := min (monthLen yearA.toNat monthA.toNat) (r.day.getD t.day)
    let hA := r.hour.getD t.hour
    let minA := r.minute.getD t.minute
    let sA := r.second.getD t.second
    let usA := r.microsecond.getD t.microsecond
    if yearA < 1 ∨ yearA > 9999 then
      .error ("year " ++ toString yearA ++ " is out of range")
    else if dayA < 1 then .error "day is out of range for month"
    else if hA > 23 then .error "hour must be in 0..23"
    else if minA > 59 then .error "minute must be in 0..59"
    else if sA > 59 then .error "second must be in 0..59"
    else if usA > 999999 then .error "microsecond must be in 0..999999"
    else
      let base : PyDateTime := ⟨yearA.toNat, monthA.toNat, dayA, hA, minA, sA, usA⟩
      let delta : Int :=
        ((r.days * 24 + r.hours) * 60 + r.minutes) * 60 * 1000000
          + r.seconds * 1000000 + r.microseconds
      match addDeltaMicros base delta with
      | .error e => .error e
      | .ok ret =>
        match r.weekday with
        | none => .ok ret
        | some (wd, n) =>
          let nth : Int := if n = 0 then 1 else n
          let w : Nat := weekdayOfDays (daysSinceEpoch ret.year ret.month ret.day)
          let jump : Int :=
            if nth > 0 then
              ((nth.natAbs - 1 : Nat) : Int) * 7 + ((7 - (w : Int) + (wd : Int)).emod 7)
            else
              -(((nth.natAbs - 1 : Nat) : Int) * 7 + (((w : Int) - (wd : Int)).emod 7))
          addDeltaMicros ret (jump * microsPerDay)

/-- Character class `\w` of the clause regex (ASCII fragment; clauses are
lowercased ASCII). -/
def isWordChar (c : Char) : Bool := c.isAlphanum || c == '_'

/-- Matcher for `DateTimeParseMixin._clause`, the anchored regex
`(\w{3,})([-+=])(\d+) *` under `fullmatch`: a word run of length at least
3, one operator character, a digit run, then only spaces.  The runs are
maximal, which is exactly what the greedy regex resolves to. -/
def matchClause (cs : List Char) : Option (String × Char × Nat) :=
  let w := cs.takeWhile isWordChar
  let rest := cs.drop w.length
  if w.length < 3 then none
  else
    match rest with
    | [] => none
    | op :: rest2 =>
      if op == '-' || op == '+' || op == '=' then
        let ds := rest2.takeWhile Char.isDigit
        let tail := rest2.drop ds.length
        if ds.isEmpty then none
        else if tail.all (· == ' ') then some (⟨w⟩, op, digitsToNat ds)
        else none
      else none

/-- Target of a clause field: a calendar unit name or a weekday number
(`relativedelta.MO .. SU`, Monday 0). -/
inductive ClauseArg where
  | unit (fieldName : String)
  | wday (w : Nat)
deriving DecidableEq

/-- The ordered `_clause_types` table.  Note Monday's key is `mond` (four
letters), to avoid colliding with `mont`. -/
def clauseFieldTable : List (String × ClauseArg) :=
  [("yea", .unit "year"), ("mont", .unit "month"), ("day", .unit "day"),
   ("hou", .unit "hour"), ("min", .unit "minute"), ("sec", .unit "second"),
   ("mic", .unit "microsecond"), ("wee", .unit "week"),
   ("mond", .wday 0), ("tue", .wday 1), ("wed", .wday 2), ("thu", .wday 3),
   ("fri", .wday 4), ("sat", .wday 5), ("sun", .wday 6)]

/-- Is `p` a prefix of `s`? (`str.startswith`). -/
def listIsPref : List Char → List Char → Bool
  | [], _ => true
  | _, [] => false
  | p :: ps, c :: cs => p == c && listIsPref ps cs

/-- First-match search of the field table, as the `for ... break` loop in
`DateTimeParseMixin._parse`. -/
def findField (field : String) : Option ClauseArg :=
  (clauseFieldTable.find? fun p => listIsPref p.1.data field.data).map (·.2)

/-- The `{"+": "add", "-": "subtract", "=": "set"}` table. -/
def humanOp (op : Char) : String :=
  if op == '+' then "add" else if op == '-' then "subtract" else "set"

/-- The relative-delta branch of `DateTimeParseMixin._parse` for one
clause: regex match, field prefix search, operator dispatch, and the
`relativedelta` addition.  `val` is a `Nat` because the regex group is
`(\d+)`, so Python's `val <= 0` is `val = 0` here. -/
def relClause (res : PyDateTime) (c : String) : Except String PyDateTime :=
  match matchClause c.data with
  | none => .error ("Unrecognized clause '" ++ c ++ "'")
  | some (field, op, val) =>
    match findField field with
    | none => .error ("Unrecognized field '" ++ field ++ "'")
    | some (.unit arg) =>
      if op == '+' then dtAddRel res (relOfPlural arg (val : Int))
      else if op == '-' then dtAddRel res (relOfPlural arg (-(val : Int)))
      else
        if arg == "week" then
          .error ("'" ++ String.singleton op ++ "' not supported for '" ++ field ++ "'")
        else if (arg == "year" || arg == "month" || arg == "day") && val == 0 then
          .error ("Can't " ++ humanOp op ++ " '" ++ field ++ "' to '" ++ toString val ++ "'")
        else dtAddRel res (relOfAbs arg val)
    | some (.wday w) =>
      if op == '=' then
        .error ("'" ++ String.singleton op ++ "' not supported for '" ++ field ++ "'")
      else if val == 0 then
        .error ("Can't " ++ humanOp op ++ " '" ++ toString val ++ "' '" ++ field ++ "'s")
      else if op == '+' then dtAddRel res { weekday := some (w, (val : Int)) }
      else dtAddRel res { weekday := some (w, -(val : Int)) }

/-- Matcher for the branch-3 regex
`[^\d]*((\d{8})|(\d{4}[^\d]+\d{1,2}[^\d]+\d{1,2}([^\d]|$)))` under
`re.match` (prefix-anchored).  Since every alternative starts with a
digit, the leading `[^\d]*` deterministically consumes the maximal
non-digit run, and each quantified digit run must coincide with a maximal
digit run of the stated length. -/
def branch3Match (cs : List Char) : Bool :=
  let afterPre := cs.dropWhile (fun c => !c.isDigit)
  let r1 := afterPre.takeWhile Char.isDigit
  if r1.length ≥ 8 then true
  else if r1.length == 4 then
    let t1 := afterPre.drop r1.length
    let n1 := t1.takeWhile (fun c => !c.isDigit)
    if n1.isEmpty then false
    else
      let t2 := t1.drop n1.length
      let r2 := t2.takeWhile Char.isDigit
      if r2.length == 0 || r2.length > 2 then false
      else
        let t3 := t2.drop r2.length
        let n2 := t3.takeWhile (fun c => !c.isDigit)
        if n2.isEmpty then false
        else
          let t4 := t3.drop n2.length
          let r3 := t4.takeWhile Char.isDigit
          r3.length == 1 || r3.length == 2
  else false

/-- Interface of `dateutil.parser.parse(clause, dayfirst=, yearfirst=,
default=)` as the evaluator consumes it: arguments are day-first,
year-first, the clause text, and the `default` datetime supplying
unspecified components.  An `.error` result stands for a raised
`ParserError` (the only exception class dateutil's parser raises for
unparseable input, and the only one `_unambiguous_date_parse` catches). -/
structure DateGuess where
  run : Bool → Bool → String → PyDateTime → Except String PyDateTime

/-- `DateTimeParseMixin._unambiguous_date_parse`: parse the clause under
all four day-first/year-first combinations inside one `try`.  A
`ParserError` from any attempt is caught and yields `None` (`.ok none`);
if all succeed, a one-element set means agreement (`.ok (some r)`), and
otherwise `Exception("Ambiguous value")` is raised — an exception that is
NOT a `ParserError` and therefore escapes the `except` clause
(`.error "Ambiguous value"`). -/
def unambiguousParse (g : DateGuess) (s : String) (d : PyDateTime) :
    Except String (Option PyDateTime) :=
  match g.run false false s d with
  | .error _ => .ok none
  | .ok r1 =>
    match g.run true false s d with
    | .error _ => .ok none
    | .ok r2 =>
      match g.run false true s d with
      | .error _ => .ok none
      | .ok r3 =>
        match g.run true true s d with
        | .error _ => .ok none
        | .ok r4 =>
          if r2 = r1 ∧ r3 = r1 ∧ r4 = r1 then .ok (some r1)
          else .error "Ambiguous value"

/-- `DateTimeParseMixin._truncate_dt`. -/
def truncMidnight (t : PyDateTime) : PyDateTime :=
  { t with hour := 0, minute := 0, second := 0, microsecond := 0 }

/-- One clause of `DateTimeParseMixin._parse`'s loop, in source branch
order: `now`, `today`, the branch-3 iso-looking regex (errors from the
flag-default parse propagate), the unambiguous four-way parse (a result
replaces the accumulator, `None` falls through, `Ambiguous value`
escapes), and finally the relative-delta branch. -/
def evalClause (g : DateGuess) (now res : PyDateTime) (clause : String) :
    Except String PyDateTime :=
  let c := pyLower clause
  if c == "now" then .ok now
  else if c == "today" then .ok (truncMidnight now)
  else if branch3Match c.data then g.run false false c (truncMidnight res)
  else
    match unambiguousParse g c (truncMidnight res) with
    | .error e => .error e
    | .ok (some r) => .ok r
    | .ok none => relClause res c

/-- The clause loop of `DateTimeParseMixin._parse`: left fold over the
whitespace-split clauses, aborting on the first raised exception. -/
def runClauses (g : DateGuess) (now : PyDateTime) :
    PyDateTime → List String → Except String PyDateTime
  | res, [] => .ok res
  | res, cl :: rest =>
    match evalClause g now res cl with
    | .error e => .error e
    | .ok r => runClauses g now r rest

/-- `DateTimeParseMixin._parse` on the expression text, with the current
instant `timezone.now()` passed explicitly as `now`. -/
def dtEval (g : DateGuess) (now : PyDateTime) (value : String) :
    Except String PyDateTime :=
  runClauses g now now (pySplitWS value)

/-- Helper for `splitSlash`: accumulate the current piece in reverse. -/
def splitSlashAux : List Char → List Char → List (List Char)
  | [], acc => [acc.reverse]
  | c :: rest, acc =>
    if c == '/' then acc.reverse :: splitSlashAux rest []
    else splitSlashAux rest (c :: acc)

/-- Split a character list at `/` separators. -/
def splitSlash (cs : List Char) : List (List Char) := splitSlashAux cs []

/-- Modelled dateutil behaviour: `dateutil.parser.parse` is an external
library (not part of this repository), modelled here on the two fragments
the claims exercise.
(1) Numeric triples `a/b/c` with every component between 1 and 12 written
with at most two digits: dateutil's `_ymd.resolve_ymd` resolves them
exactly by the two flags — `M/D/Y`, `D/M/Y` (day-first), `Y/M/D`
(year-first), `Y/D/M` (both) — and a two-digit year lands in the 2000s.
(2) A recognised three-letter weekday name, a `-` (one of dateutil's
skippable jump tokens), and a bare number: the dash is skipped and the
number, being at most 31, becomes the day of month, so the result is the
default with the day replaced — identical under all four flag
combinations (with the day given, no weekday adjustment is applied).
`+` is not a jump token and `mond` is not a weekday name, so clauses such
as `tue+1` or `mond-1` raise `ParserError`, as does everything else
outside the two fragments.  Unspecified components come from
`default`. -/
def guessModel : DateGuess :=
  ⟨fun dayfirst yearfirst s d =>
    let err : Except String PyDateTime := .error ("Unknown string format: " ++ s)
    let parts := splitSlash s.data
    let vals := parts.map digitsToNat
    if parts.length == 3
        && parts.all (fun p => !p.isEmpty && p.length ≤ 2 && p.all Char.isDigit)
        && vals.all (fun v => 1 ≤ v && v ≤ 12) then
      match vals with
      | [a, b, c] =>
        let ymd :=
          if yearfirst then (if dayfirst then (a, c, b) else (a, b, c))
          else (if dayfirst then (c, b, a) else (c, a, b))
        let y := if ymd.1 < 100 then 2000 + ymd.1 else ymd.1
        .ok ⟨y, ymd.2.1, ymd.2.2, d.hour, d.minute, d.second, d.microsecond⟩
      | _ => err
    else
      let wd := s.data.takeWhile (· ≠ '-')
      match s.data.drop wd.length with
      | '-' :: ds =>
        if ["mon", "tue", "wed", "thu", "fri", "sat", "sun"].contains ⟨wd⟩
            && !ds.isEmpty && ds.all Char.isDigit
            && 1 ≤ digitsToNat ds && digitsToNat ds ≤ monthLen d.year d.month then
          .ok ⟨d.year, d.month, digitsToNat ds, d.hour, d.minute, d.second, d.microsecond⟩
        else err
      | _ => err⟩

/-- Python type name of a value, as it appears in runtime error messages
(`int` and `float` are conflated by the exact-number model). -/
def pyTyName : Value → String
  | .null => "NoneType"
  | .bool _ => "bool"
  | .num _ => "float"
  | .str _ => "str"
  | .list _ => "list"
  | .dt _ => "datetime.datetime"
  | .date _ => "datetime.date"
  | .dur _ => "datetime.timedelta"

/-- Whitespace skipper of the json codec. -/
def jsonSkipWS (cs : List Char) : List Char :=
  cs.dropWhile (fun c => c == ' ' || c == '\t' || c == '\n' || c == '\r')

/-- Body of a json string literal after the opening quote, with the basic
escapes; `\u` escapes are outside the modelled fragment. -/
def jsonStringAux : List Char → List Char → Option (String × List Char)
  | [], _ => none
  | ['\\'], _ => none
  | '\\' :: e :: rest, acc =>
    if e == '"' then jsonStringAux rest ('"' :: acc)
    else if e == '\\' then jsonStringAux rest ('\\' :: acc)
    else if e == '/' then jsonStringAux rest ('/' :: acc)
    else if e == 'n' then jsonStringAux rest ('\n' :: acc)
    else if e == 't' then jsonStringAux rest ('\t' :: acc)
    else if e == 'r' then jsonStringAux rest ('\r' :: acc)
    else none
  | '"' :: rest, acc => some (⟨acc.reverse⟩, rest)
  | c :: rest, acc => jsonStringAux rest (c :: acc)

/-- A json number: optional minus, digits, optional fraction; exponents
are outside the modelled fragment. -/
def jsonNumber (cs : List Char) : Option (PyNum × List Char) :=
  let p := match cs with
    | '-' :: r => (true, r)
    | _ => (false, cs)
  let ds := p.2.takeWhile Char.isDigit
  if ds.isEmpty then none
  else
    let t2 := p.2.drop ds.length
    match t2 with
    | '.' :: t3 =>
      let fs := t3.takeWhile Char.isDigit
      if fs.isEmpty then none
      else
        let mant : Int := digitsToNat (ds ++ fs)
        some (⟨if p.1 then -mant else mant, 10 ^ fs.length⟩, t3.drop fs.length)
    | _ =>
      let mant : Int := digitsToNat ds
      some (⟨if p.1 then -mant else mant, 1⟩, t2)

mutual

/-- One json value (fuelled recursion; the fuel bounds nesting depth).
Objects are outside the modelled fragment, which covers every input the
engine's claims exercise. -/
def jsonValueAux : Nat → List Char → Option (Value × List Char)
  | 0, _ => none
  | fuel + 1, cs =>
    let t := jsonSkipWS cs
    match t with
    | '"' :: rest => (jsonStringAux rest []).map fun p => (.str p.1, p.2)
    | '[' :: rest =>
      let r2 := jsonSkipWS rest
      match r2 with
      | ']' :: r3 => some (.list [], r3)
      | _ => jsonArrayAux fuel r2 []
    | 't' :: 'r' :: 'u' :: 'e' :: rest => some (.bool true, rest)
    | 'f' :: 'a' :: 'l' :: 's' :: 'e' :: rest => some (.bool false, rest)
    | 'n' :: 'u' :: 'l' :: 'l' :: rest => some (.null, rest)
    | _ => (jsonNumber t).map fun p => (.num p.1, p.2)

/-- Comma-separated json array elements up to the closing bracket. -/
def jsonArrayAux : Nat → List Char → List Value → Option (Value × List Char)
  | 0, _, _ => none
  | fuel + 1, cs, acc =>
    match jsonValueAux fuel cs with
    | none => none
    | some (v, rest) =>
      let r := jsonSkipWS rest
      match r with
      | ',' :: r2 => jsonArrayAux fuel r2 (v :: acc)
      | ']' :: r2 => some (.list (v :: acc).reverse, r2)
      | _ => none

end

/-- `json.loads` on a string: one value and nothing but whitespace after
it. -/
def jsonParse (s : String) : Option Value :=
  match jsonValueAux (s.data.length + 1) s.data with
  | none => none
  | some (v, rest) => if (jsonSkipWS rest).isEmpty then some v else none

/-- `_json_loads` from types.py: strip the text, decode, and turn any
decode failure into `ValueError("Invalid JSON value")`.  A non-string
argument fails at `value.strip()` with an `AttributeError`. -/
def pyJsonLoads (v : Value) : Except String Value :=
  match v with
  | .str s =>
    match jsonParse (pyStrip s) with
    | some r => .ok r
    | none => .error "Invalid JSON value"
  | other => .error ("'" ++ pyTyName other ++ "' object has no attribute 'strip'")

/-- Python `float(str)`: strip, optional sign, digits with an optional
fractional part.  Exponents and `inf`/`nan` are outside the modelled
fragment.  Failure raises `ValueError` with the original text quoted. -/
def pyFloatOfString (s : String) : Except String PyNum :=
  let err := "could not convert string to float: '" ++ s ++ "'"
  let t := (pyStrip s).data
  let p := match t with
    | '-' :: r => (true, r)
    | '+' :: r => (false, r)
    | _ => (false, t)
  let ds := p.2.takeWhile Char.isDigit
  let t2 := p.2.drop ds.length
  match t2 with
  | [] =>
    if ds.isEmpty then .error err
    else .ok ⟨if p.1 then -(digitsToNat ds : Int) else (digitsToNat ds : Int), 1⟩
  | '.' :: t3 =>
    let fs := t3.takeWhile Char.isDigit
    if !(t3.drop fs.length).isEmpty then .error err
    else if ds.isEmpty && fs.isEmpty then .error err
    else
      let mant : Int := digitsToNat (ds ++ fs)
      .ok ⟨if p.1 then -mant else mant, 10 ^ fs.length⟩
  | _ => .error err

/-- Python `float(value)` as `NumberType._parse` applies it to a decoded
value: numbers pass through, bools become 0/1, strings are converted,
anything else raises `TypeError`. -/
def pyFloatV : Value → Except String PyNum
  | .num q => .ok q
  | .bool b => .ok ⟨if b then 1 else 0, 1⟩
  | .str s => pyFloatOfString s
  | v => .error ("float() argument must be a string or a real number, not '"
      ++ pyTyName v ++ "'")

/-- Left-pad a numeral with zeros. -/
def padZeros (s : String) (w : Nat) : String :=
  ⟨List.replicate (w - s.data.length) '0' ++ s.data⟩

/-- Python `str(date)`. -/
def pyStrDate (d : PyDate) : String :=
  padZeros (toString d.year) 4 ++ "-" ++ padZeros (toString d.month) 2
    ++ "-" ++ padZeros (toString d.day) 2

/-- Python `str(datetime)` (microseconds shown only when non-zero). -/
def pyStrDT (t : PyDateTime) : String :=
  pyStrDate ⟨t.year, t.month, t.day⟩ ++ " " ++ padZeros (toString t.hour) 2
    ++ ":" ++ padZeros (toString t.minute) 2 ++ ":" ++ padZeros (toString t.second) 2
    ++ (if t.microsecond == 0 then "" else "." ++ padZeros (toString t.microsecond) 6)

/-- Exponent `k` with `10 ^ k` equal to the denominator, when the
denominator is a power of ten (the only shapes this model builds). -/
def pow10Exp (d : Nat) : Option Nat :=
  (List.range 31).find? (fun k => 10 ^ k == d)

/-- Rendering of a number, as Python `str` on the fragment the model
builds (integers, and fractions over a power of ten). -/
def pyStrNum (q : PyNum) : String :=
  if q.den == 1 then toString q.num
  else
    match pow10Exp q.den with
    | some k =>
      let a := q.num.natAbs
      (if q.num < 0 then "-" else "") ++ toString (a / q.den) ++ "."
        ++ padZeros (toString (a % q.den)) k
    | none => toString q.num ++ "/" ++ toString q.den

/-- Python `str(timedelta)` on the non-negative fragment. -/
def pyStrDur (m : Int) : String :=
  let a := m.natAbs
  let days := a / microsPerDay
  let r := a % microsPerDay
  let rs := r / 1000000
  let us := r % 1000000
  (if m < 0 then "-" else "")
    ++ (if days == 0 then "" else toString days ++ (if days == 1 then " day, " else " days, "))
    ++ toString (rs / 3600) ++ ":" ++ padZeros (toString (rs / 60 % 60)) 2
    ++ ":" ++ padZeros (toString (rs % 60)) 2
    ++ (if us == 0 then "" else "." ++ padZeros (toString us) 6)

mutual

/-- Python `str(value)` as interpolated into engine error messages and
string formatters (list rendering approximates `repr`). -/
def pyStrV : Value → String
  | .null => "None"
  | .bool b => if b then "True" else "False"
  | .num q => pyStrNum q
  | .str s => s
  | .list l => "[" ++ pyStrListV l ++ "]"
  | .dt t => pyStrDT t
  | .date d => pyStrDate d
  | .dur m => pyStrDur m

/-- Comma-joined list elements for `pyStrV`. -/
def pyStrListV : List Value → String
  | [] => ""
  | [v] => pyStrV v
  | v :: rest => pyStrV v ++ ", " ++ pyStrListV rest

end

/-- Escapes of the json encoder (quote and backslash; the formatter
outputs the claims exercise need no others). -/
def jsonEscape (s : String) : String :=
  ⟨s.data.foldr (fun c acc =>
    if c == '"' then '\\' :: '"' :: acc
    else if c == '\\' then '\\' :: '\\' :: acc
    else c :: acc) []⟩

mutual

/-- `json.dumps` with `DjangoJSONEncoder` on one value (dates and
datetimes render as ISO strings). -/
def jsonDumpV : Value → String
  | .null => "null"
  | .bool b => if b then "true" else "false"
  | .num q => pyStrNum q
  | .str s => "\"" ++ jsonEscape s ++ "\""
  | .list l => "[" ++ jsonDumpList l ++ "]"
  | .dt t => "\"" ++ pyStrDT t ++ "\""
  | .date d => "\"" ++ pyStrDate d ++ "\""
  | .dur m => "\"" ++ pyStrDur m ++ "\""

/-- Comma-joined encoded elements. -/
def jsonDumpList : List Value → String
  | [] => ""
  | [v] => jsonDumpV v
  | v :: rest => jsonDumpV v ++ "," ++ jsonDumpList rest

end

/-- `BooleanType._parse`: lowercase the text and accept exactly `true` or
`false`.  A non-string fails at `value.lower()`. -/
def pyBoolParse : Value → Except String Value
  | .str s =>
    let v := pyLower s
    if v == "true" then .ok (.bool true)
    else if v == "false" then .ok (.bool false)
    else .error "Expected 'true' or 'false'"
  | other => .error ("'" ++ pyTyName other ++ "' object has no attribute 'lower'")

/-- One `H:M:S`-style component list to microseconds, for the duration
model. -/
def hmsToMicros (h m s : Nat) : Int := (((h * 60 + m) * 60 + s) * 1000000 : Nat)

/-- `DurationType._parse`: a single `:` gets `:0` appended, then Django's
`parse_duration` runs.  `parse_duration` is external library code,
modelled on its standard-format fragment `[DD ]HH:MM:SS` plus a bare
seconds count, all non-negative; `None` (no match) raises the message
from types.py. -/
def pyDurationParse : Value → Except String Value
  | .str s =>
    let t := if (s.data.filter (· == ':')).length == 1 then s ++ ":0" else s
    let pieces := pySplitWS t
    let parse1 : String → Option Nat := fun x =>
      if !x.data.isEmpty && x.data.all Char.isDigit then some (digitsToNat x.data) else none
    let timePart : String → Option Int := fun x =>
      match (x.data.filter (· == ':')).length with
      | 0 => (parse1 x).map fun n => (n * 1000000 : Nat)
      | 2 =>
        let a := x.data.takeWhile (· ≠ ':')
        let r1 := (x.data.drop a.length).drop 1
        let b := r1.takeWhile (· ≠ ':')
        let c := (r1.drop b.length).drop 1
        if !a.isEmpty && a.all Char.isDigit && !b.isEmpty && b.all Char.isDigit
            && !c.isEmpty && c.all Char.isDigit then
          some (hmsToMicros (digitsToNat a) (digitsToNat b) (digitsToNat c))
        else none
      | _ => none
    let res : Option Int :=
      match pieces with
      | [x] => timePart x
      | [d, x] => match parse1 d, timePart x with
        | some dd, some mm => some ((dd * microsPerDay : Nat) + mm)
        | _, _ => none
      | _ => none
    match res with
    | some m => .ok (.dur m)
    | none => .error "Duration value should be 'DD HH:MM:SS'"
  | other => .error ("'" ++ pyTyName other ++ "' object has no attribute 'count'")

/-- Is the character an ASCII hexadecimal digit? -/
def isHexDigit (c : Char) : Bool :=
  c.isDigit || ('a' ≤ c && c ≤ 'f') || ('A' ≤ c && c ≤ 'F')

/-- `UUIDType._parse` via `uuid.UUID(value)`: hyphens are removed and 32
hex digits are required (the urn/brace forms are outside the modelled
fragment); the canonical lowercase hyphenated form is the resulting
value, which `str()` later renders. -/
def pyUUIDParse : Value → Except String Value
  | .str s =>
    let cs := (s.data.filter (· ≠ '-')).map Char.toLower
    if cs.length == 32 && cs.all isHexDigit then
      .ok (.str (⟨cs.take 8⟩ ++ "-" ++ ⟨(cs.drop 8).take 4⟩ ++ "-"
        ++ ⟨(cs.drop 12).take 4⟩ ++ "-" ++ ⟨(cs.drop 16).take 4⟩ ++ "-" ++ ⟨cs.drop 20⟩))
    else .error "badly formed hexadecimal UUID string"
  | _ => .error "one of the hex, bytes, bytes_le, fields, or int arguments must be given"

/-- `JSONFieldType._parse`: strip, require a `|` separator (note the
source misspells the message as `seperator`), split at the first `|`,
require a non-empty field name, then json-decode the remainder. -/
def jsonFieldParse : Value → Except String Value
  | .str s =>
    let t := pyStrip s
    if t.data.contains '|' then
      let field := t.data.takeWhile (· ≠ '|')
      let rest : List Char := (t.data.drop field.length).drop 1
      if field.isEmpty then .error "Invalid field name"
      else
        match pyJsonLoads (.str ⟨rest⟩) with
        | .error e => .error e
        | .ok v => .ok (.list [.str ⟨field⟩, v])
    else .error "Missing seperator '|'"
  | other => .error ("'" ++ pyTyName other ++ "' object has no attribute 'strip'")

/-- Per-field choice list: ordered `(raw value, display label)` pairs. -/
def Choices := List (Value × String)

/-- Lookup in a dict built from pairs (`dict(pairs)`): insertion order
with later pairs overriding earlier ones for equal keys, so search the
reversed list with Python equality. -/
def pyDictGetV (pairs : List (Value × String)) (k : Value) : Option String :=
  (pairs.reverse.find? fun p => pyEqV p.1 k).map (·.2)

/-- Lookup in the inverted dict `{v: k for k, v in choices}` (label to
raw value, later pairs overriding earlier ones). -/
def invGet (pairs : List (Value × String)) (label : Value) : Option Value :=
  (pairs.reverse.find? fun p => pyEqV (.str p.2) label).map (·.1)

/-- `ChoiceTypeMixin._parse` body (after its choices assert): invert the
choice dict and either map the label to its raw value or raise
`Unknown choice`. -/
def choiceParseRaw (v : Value) (choices : List (Value × String)) : Except String Value :=
  match invGet choices v with
  | none => .error ("Unknown choice '" ++ pyStrV v ++ "'")
  | some raw => .ok raw

/-- The formatter closure `ChoiceTypeMixin._get_formatter` returns:
`choices.get(value, value)` — a mapped raw value becomes its label, an
unmapped one is returned unchanged. -/
def choiceFormatFn (choices : List (Value × String)) : Value → Except String Value :=
  fun v =>
    match pyDictGetV choices v with
    | some lbl => .ok (.str lbl)
    | none => .ok v

/-- `IsNullType.choices`: the tri-state list, with `None` and `True` both
labelled `IsNull`. -/
def isnullChoices : List (Value × String) :=
  [(.null, "IsNull"), (.bool true, "IsNull"), (.bool false, "NotNull")]

/-- The registered descriptors: every strict subclass of `BaseType` in
types.py (`TYPES = {cls.name: cls for cls in all_subclasses(BaseType)}`;
`all_subclasses` from the out-of-src common.py is the usual transitive
`__subclasses__` walk, which excludes `BaseType` itself). -/
inductive TyName where
  | string | stringable | number | regex | duration | datetime | date
  | html | url | boolean | uuid | unknown | jsonfield | json
  | stringchoice | numberchoice | isnull
  | booleanarray | durationarray | datetimearray | datearray | uuidarray
  | urlarray | stringarray | numberarray | stringablearray
  | stringchoicearray | numberchoicearray
deriving DecidableEq

/-- The registry key of each descriptor (`cls.name`: the class name
without `Type`, lowercased) paired with the descriptor.  Python builds
this dict from a set, so only its key-value content is specified; the
association list here carries that content. -/
def TYPES : List (String × TyName) :=
  [("string", .string), ("stringable", .stringable), ("number", .number),
   ("regex", .regex), ("duration", .duration), ("datetime", .datetime),
   ("date", .date), ("html", .html), ("url", .url), ("boolean", .boolean),
   ("uuid", .uuid), ("unknown", .unknown), ("jsonfield", .jsonfield),
   ("json", .json), ("stringchoice", .stringchoice),
   ("numberchoice", .numberchoice), ("isnull", .isnull),
   ("booleanarray", .booleanarray), ("durationarray", .durationarray),
   ("datetimearray", .datetimearray), ("datearray", .datearray),
   ("uuidarray", .uuidarray), ("urlarray", .urlarray),
   ("stringarray", .stringarray), ("numberarray", .numberarray),
   ("stringablearray", .stringablearray),
   ("stringchoicearray", .stringchoicearray),
   ("numberchoicearray", .numberchoicearray)]

/-- The element type of each array descriptor (`element_type`). -/
def elementTypeOf : TyName → Option TyName
  | .booleanarray => some .boolean
  | .durationarray => some .duration
  | .datetimearray => some .datetime
  | .datearray => some .date
  | .uuidarray => some .uuid
  | .urlarray => some .url
  | .stringarray => some .string
  | .numberarray => some .number
  | .stringablearray => some .stringable
  | .stringchoicearray => some .stringchoice
  | .numberchoicearray => some .numberchoice
  | _ => none

/-- One lookup row as the `lookups` metaclass property yields it:
`(name, pretty name, target type name, keep-choices flag)`.  A Python
`keep_choices` of `None` (used by the json sub-lookups) is falsy in
`if not keep_choices`, so it is carried as `false`. -/
abbrev lookupRow := String × String × TyName × Bool

/-- `BaseType._lookups`. -/
def baseLookups (t : TyName) : List lookupRow :=
  [("equals", "equals", t, true), ("not_equals", "not equals", t, true),
   ("is_null", "is null", .isnull, false)]

/-- `StringType._lookups`. -/
def stringLookups (t : TyName) : List lookupRow :=
  [("equals", "equals", t, true), ("contains", "contains", t, true),
   ("starts_with", "starts with", t, true), ("ends_with", "ends with", t, true),
   ("regex", "regex", .regex, false), ("not_equals", "not equals", t, true),
   ("not_contains", "not contains", t, true),
   ("not_starts_with", "not starts with", t, true),
   ("not_ends_with", "not ends with", t, true),
   ("not_regex", "not regex", .regex, false), ("is_null", "is null", .isnull, false)]

/-- `SequenceTypeMixin._lookups`. -/
def seqLookups (t : TyName) : List lookupRow :=
  [("equals", "equals", t, true), ("not_equals", "not equals", t, true),
   ("gt", ">", t, true), ("gte", ">=", t, true), ("lt", "<", t, true),
   ("lte", "<=", t, true), ("is_null", "is null", .isnull, false)]

/-- `ArrayTypeMixin._lookups`. -/
def arrayLookups (t elem : TyName) : List lookupRow :=
  [("equals", "equals", t, true), ("contains", "contains", elem, true),
   ("length", "length", .number, false), ("not_equals", "not equals", t, true),
   ("not_contains", "not contains", elem, true),
   ("not_length", "not length", .number, false), ("is_null", "is null", .isnull, false)]

/-- The lookup table of every registered descriptor, per its class's
`_lookups` override. -/
def lookupsOf : TyName → List lookupRow
  | .string => stringLookups .string
  | .url => stringLookups .url
  | .html => [("is_null", "is null", .isnull, false)]
  | .unknown => [("is_null", "is null", .isnull, false)]
  | .number => seqLookups .number
  | .duration => seqLookups .duration
  | .datetime => seqLookups .datetime
  | .date => seqLookups .date
  | .json =>
    [("equals", "equals", .json, true), ("has_key", "has key", .string, false),
     ("field_equals", "field equals", .jsonfield, false),
     ("not_equals", "not equals", .json, true),
     ("not_has_key", "not has key", .string, false),
     ("not_field_equals", "not field equals", .jsonfield, false),
     ("is_null", "is null", .isnull, false)]
  | .isnull => [("equals", "equals", .isnull, false)]
  | .booleanarray => arrayLookups .booleanarray .boolean
  | .durationarray => arrayLookups .durationarray .duration
  | .datetimearray => arrayLookups .datetimearray .datetime
  | .datearray => arrayLookups .datearray .date
  | .uuidarray => arrayLookups .uuidarray .uuid
  | .urlarray => arrayLookups .urlarray .url
  | .stringarray => arrayLookups .stringarray .string
  | .numberarray => arrayLookups .numberarray .number
  | .stringablearray => arrayLookups .stringablearray .stringable
  | .stringchoicearray => arrayLookups .stringchoicearray .stringchoice
  | .numberchoicearray => arrayLookups .numberchoicearray .numberchoice
  | t => baseLookups t

/-- Dict lookup in a lookup table (`lookups[lookup]`); lookup names are
unique per descriptor, so first match suffices. -/
def lookupFind (rows : List lookupRow) (name : String) : Option (String × TyName × Bool) :=
  (rows.find? fun r => r.1 == name).map (·.2)

/-- The `assert not choices` guard opening most `_parse` bodies: a failed
Python assert raises a bare `AssertionError`, whose empty `str` makes
`BaseType.parse` fall back to its repr. -/
def assertNoChoices (choices : Choices) (k : Except String Value) : Except String Value :=
  if List.isEmpty choices then k else .error "AssertionError()"

/-- `_parse` of every non-array descriptor.  The catch-all is
`BaseType._parse` (assert, then return the text unchanged), which is the
inherited implementation of `StringType` and its html/url/stringable/
unknown relatives.  `RegexType._parse` validates the regex through a
throwaway database query — external machinery modelled as accepting (no
claim depends on which regexes the database accepts). -/
def parseRawScalar (now : PyDateTime) (t : TyName) (v : Value) (choices : Choices) :
    Except String Value :=
  match t with
  | .number => assertNoChoices choices ((pyFloatV v).map .num)
  | .boolean => assertNoChoices choices (pyBoolParse v)
  | .duration => assertNoChoices choices (pyDurationParse v)
  | .uuid => assertNoChoices choices (pyUUIDParse v)
  | .json => assertNoChoices choices (pyJsonLoads v)
  | .jsonfield => assertNoChoices choices (jsonFieldParse v)
  | .datetime =>
    assertNoChoices choices
      (match v with
       | .str s => (dtEval guessModel now s).map .dt
       | other => .error ("'" ++ pyTyName other ++ "' object has no attribute 'split'"))
  | .date =>
    assertNoChoices choices
      (match v with
       | .str s => (dtEval guessModel now s).map fun r => .date ⟨r.year, r.month, r.day⟩
       | other => .error ("'" ++ pyTyName other ++ "' object has no attribute 'split'"))
  | .stringchoice =>
    if List.isEmpty choices then .error "AssertionError()" else choiceParseRaw v choices
  | .numberchoice =>
    if List.isEmpty choices then .error "AssertionError()" else choiceParseRaw v choices
  | .isnull => assertNoChoices choices (choiceParseRaw v isnullChoices)
  | _ => assertNoChoices choices (.ok v)

/-- The fail-fast element loop of `ArrayTypeMixin._parse`'s list
comprehension: the first element whose parse raises aborts the whole
comprehension with that exception. -/
def exceptMapList (f : Value → Except String Value) : List Value → Except String (List Value)
  | [] => .ok []
  | v :: rest =>
    match f v with
    | .error e => .error e
    | .ok x =>
      match exceptMapList f rest with
      | .error e => .error e
      | .ok xs => .ok (x :: xs)

/-- `ArrayTypeMixin._parse`: json-decode the text, require a list, and
parse each element with the element type's `_parse`, sharing the same
choices. -/
def arrayParseWith (elemParse : Value → Except String Value) (v : Value) :
    Except String Value :=
  match pyJsonLoads v with
  | .error e => .error e
  | .ok j =>
    match j with
    | .list xs =>
      match exceptMapList elemParse xs with
      | .error e => .error e
      | .ok rs => .ok (.list rs)
    | _ => .error "Expected a list"

/-- `_parse` of any registered descriptor: array descriptors run the
array loop over their element type's `_parse`, everything else is
`parseRawScalar`. -/
def parseRaw (now : PyDateTime) (t : TyName) (v : Value) (choices : Choices) :
    Except String Value :=
  match elementTypeOf t with
  | some et => arrayParseWith (fun e => parseRawScalar now et e choices) v
  | none => parseRawScalar now t v choices

/-- The public classmethod `parse`: run `_parse` on the caller's text and
convert any exception into the `(None, capitalised message)` pair. -/
def parseTop (now : PyDateTime) (t : TyName) (text : String) (choices : Choices) :
    Option Value × Option String :=
  pyParseWrap (parseRaw now t (.str text) choices)

/-- `parse_lookup`: resolve the lookup name (unknown names are the
structured `Bad lookup` error), discard the choices if the lookup does
not keep them, and delegate to the target type's `parse`. -/
def parseLookupTop (now : PyDateTime) (t : TyName) (lookup : String) (text : String)
    (choices : Choices) : Option Value × Option String :=
  match lookupFind (lookupsOf t) lookup with
  | none => (none, some "Bad lookup")
  | some (_, target, keep) => parseTop now target text (if keep then choices else [])

/-- Django `html.conditional_escape` on the rendered text (basic
entity escapes). -/
def htmlEscape (s : String) : String :=
  ⟨s.data.foldr (fun c acc =>
    if c == '&' then '&' :: 'a' :: 'm' :: 'p' :: ';' :: acc
    else if c == '<' then '&' :: 'l' :: 't' :: ';' :: acc
    else if c == '>' then '&' :: 'g' :: 't' :: ';' :: acc
    else if c == '"' then '&' :: 'q' :: 'u' :: 'o' :: 't' :: ';' :: acc
    else c :: acc) []⟩

/-- `_get_formatter` of every non-array descriptor, returned as
`Except`: a `.error` at the outer level is an exception raised while
building the formatter (the choices asserts), and the returned closure
itself raises as `Except` too.  `settings.USE_TZ` is deployment
configuration, modelled as off (naive datetimes).  The catch-all is
`BaseType._get_formatter` (assert, then the identity closure), inherited
by the string, url, regex, json and jsonfield descriptors. -/
def getFormatterScalar (t : TyName) (choices : Choices) :
    Except String (Value → Except String Value) :=
  match t with
  | .stringable | .duration | .uuid | .unknown | .date =>
    if List.isEmpty choices then
      .ok (fun v => match v with
        | .null => .ok .null
        | other => .ok (.str (pyStrV other)))
    else .error "AssertionError()"
  | .number =>
    if List.isEmpty choices then
      .ok (fun v => match v with
        | .null => .ok .null
        | other => (pyFloatV other).map .num)
    else .error "AssertionError()"
  | .datetime =>
    if List.isEmpty choices then
      .ok (fun v => match v with
        | .null => .ok .null
        | .dt d => .ok (.str (pyStrDT { d with microsecond := 0 }))
        | other => .error ("'" ++ pyTyName other ++ "' object has no attribute 'replace'"))
    else .error "AssertionError()"
  | .boolean =>
    if List.isEmpty choices then
      .ok (fun v => match v with
        | .null => .ok .null
        | other => .ok (.bool (pyTruthy other)))
    else .error "AssertionError()"
  | .html =>
    if List.isEmpty choices then
      .ok (fun v => match v with
        | .null => .ok .null
        | other => .ok (.str (htmlEscape (pyStrV other))))
    else .error "AssertionError()"
  | .stringchoice | .numberchoice =>
    if List.isEmpty choices then .error "AssertionError()"
    else .ok (choiceFormatFn choices)
  | .isnull =>
    if List.isEmpty choices then .ok (choiceFormatFn isnullChoices)
    else .error "AssertionError()"
  | _ =>
    if List.isEmpty choices then .ok (fun v => .ok v)
    else .error "AssertionError()"

/-- `_get_formatter` of any registered descriptor.
`ArrayTypeMixin._get_formatter` builds the element type's formatter with
the same choices (so the element's choices assert fires at creation) and
returns the closure that json-dumps the elementwise-formatted list;
`None` formats to `None` and a non-list raises while being iterated. -/
def getFormatter (t : TyName) (choices : Choices) :
    Except String (Value → Except String Value) :=
  match elementTypeOf t with
  | none => getFormatterScalar t choices
  | some et =>
    match getFormatterScalar et choices with
    | .error e => .error e
    | .ok f =>
      .ok (fun v => match v with
        | .null => .ok .null
        | .list xs =>
          match exceptMapList f xs with
          | .error e => .error e
          | .ok rs => .ok (.str ("[" ++ jsonDumpList rs ++ "]"))
        | other => .error ("'" ++ pyTyName other ++ "' object is not iterable"))

/-- `format_lookup`: resolve the lookup by direct dict access —
`cls.lookups[lookup]`, with NO membership check, so an unknown lookup
name raises `KeyError` (modelled as the escaped-exception `.error`) —
then build the target's formatter (discarding choices the lookup does not
keep) and apply it to the value. -/
def formatLookupTop (t : TyName) (lookup : String) (v : Value) (choices : Choices) :
    Except String Value :=
  match lookupFind (lookupsOf t) lookup with
  | none => .error ("KeyError: '" ++ lookup ++ "'")
  | some (_, target, keep) =>
    match getFormatter target (if keep then choices else []) with
    | .error e => .error e
    | .ok f => f v

/-- The sample list built inside `NumberType.get_format_hints`, from the
source line
`nums = [row[name] for row in data if row and row[name] and abs(row[name] > 0.0001)]`.
Note the parenthesisation: `abs` is applied to the boolean comparison
`row[name] > 0.0001` (giving 1 or 0), not to the value, so the filter
keeps exactly the non-zero values strictly greater than 0.0001.  A row is
`none` when the row itself is falsy. -/
def formatHintNums (data : List (Option PyNum)) : List PyNum :=
  data.filterMap fun row =>
    match row with
    | none => none
    | some x =>
      if decide (x.num ≠ 0)
          && (if pyNumGt x ⟨1, 10000⟩ then (1 : Int) else 0).natAbs != 0 then
        some x
      else none

/-- Modelled from the spec: `get_optimal_decimal_places` lives in
`data_browser/common.py`, which is not under src/.  The spec specifies
"the minimal number of fractional digits that preserves discrimination
among the remaining values"; modelled as the least count up to 10 at
which decimal truncation keeps all pairwise-distinct sample values
distinct. -/
def getOptimalDecimalPlaces (nums : List PyNum) : Nat :=
  let truncAt : Nat → PyNum → Int := fun dp q =>
    q.num * ((10 ^ dp : Nat) : Int) / (q.den : Int)
  let ok : Nat → Bool := fun dp =>
    nums.all fun a => nums.all fun b =>
      pyNumEq a b || decide (truncAt dp a ≠ truncAt dp b)
  ((List.range 11).find? ok).getD 10

/-- `NumberType.get_format_hints`'s result fields: the fraction-digit
bounds both equal the optimal decimal places of the filtered sample, with
fixed significant figures and magnitude cut-offs. -/
structure FormatHints where
  minimumFractionDigits : Nat
  maximumFractionDigits : Nat
  significantFigures : Nat
  lowCutOff : PyNum
  highCutOff : PyNum
deriving DecidableEq

/-- `NumberType.get_format_hints` on one column of row values. -/
def getFormatHints (data : List (Option PyNum)) : FormatHints :=
  let dp := getOptimalDecimalPlaces (formatHintNums data)
  ⟨dp, dp, 3, ⟨1, 10000⟩, ⟨10000000000, 1⟩⟩

/-- Is the first character not a lowercase letter?  This is what
`msg[0].upper()` guarantees about the start of a structured error
message. -/
def firstNotLower (s : String) : Bool :=
  match s.data with
  | [] => false
  | c :: _ => !c.isLower

/-- A structured parse result: either a successful value, or `None` with
a non-empty message that does not start with a lowercase letter. -/
def StructuredResult (r : Option Value × Option String) : Prop :=
  (∃ v, r = (some v, none)) ∨
    ∃ m, r = (none, some m) ∧ m ≠ "" ∧ firstNotLower m = true

/-- Well-formedness of a datetime, exactly the ranges Python's
`datetime` constructor enforces. -/
def PyDateTime.Valid (t : PyDateTime) : Prop :=
  1 ≤ t.year ∧ t.year ≤ 9999 ∧ 1 ≤ t.month ∧ t.month ≤ 12 ∧ 1 ≤ t.day ∧
    t.day ≤ monthLen t.year t.month ∧ t.hour ≤ 23 ∧ t.minute ≤ 59 ∧
    t.second ≤ 59 ∧ t.microsecond ≤ 999999

/-- A fixed current instant for the concrete evaluations:
2024-01-15 10:00:00, which fell on a Monday. -/
def nowJan15 : PyDateTime := ⟨2024, 1, 15, 10, 0, 0, 0⟩
/-- Uppercasing a character never yields a lowercase letter. -/
theorem toUpper_not_lower (c : Char) : c.toUpper.isLower = false := by
  have hcv : c.val.toNat = c.val.toBitVec.toNat := rfl
  simp only [Char.toUpper, Char.isLower]
  split
  · next h =>
    obtain ⟨h1, h2⟩ := h
    simp only [Char.toNat] at h1 h2 ⊢
    have hv : (c.val.toNat - 32).isValidChar := Or.inl (by omega)
    unfold Char.ofNat
    simp only [dif_pos hv]
    have heq : (Char.ofNatAux (c.val.toNat - 32) hv).val.toBitVec.toNat
        = c.val.toNat - 32 := by
      simp [Char.ofNatAux, BitVec.toNat_ofNatLt]
    have l97 : ((97 : UInt32)).toBitVec.toNat = 97 := by decide
    have hle : ¬ (97 ≤ (Char.ofNatAux (c.val.toNat - 32) hv).val) := by
      rw [UInt32.le_def]
      intro hcontra
      have h97 := BitVec.le_def.mp hcontra
      omega
    simp [hle]
  · next h =>
    simp only [Char.toNat] at h
    simp only [Bool.and_eq_false_iff, decide_eq_false_iff_not]
    by_cases hc : 97 ≤ c.val
    · right
      intro hb
      have a1 := BitVec.le_def.mp (UInt32.le_def.mp hc)
      have a2 := BitVec.le_def.mp (UInt32.le_def.mp hb)
      have l97 : ((97 : UInt32)).toBitVec.toNat = 97 := by decide
      have l122 : ((122 : UInt32)).toBitVec.toNat = 122 := by decide
      exact h ⟨by omega, by omega⟩
    · left
      exact hc


/-- String append acts as list append on the character data. -/
theorem strData_append (a b : String) : (a ++ b).data = a.data ++ b.data := by
  cases a
  cases b
  rfl

/-- Capitalisation only touches the head of a non-empty string, so it
commutes with appending a tail. -/
theorem capFirst_append (a b : String) (h : a.data ≠ []) :
    capFirst (a ++ b) = capFirst a ++ b := by
  cases a with
  | mk la =>
    cases b with
    | mk lb =>
      cases la with
      | nil => exact absurd rfl h
      | cons c cs => rfl

/-- A message of the shape `lit ++ mid ++ tail` whose literal head is
already capitalised is a fixed point of `capFirst`. -/
theorem capFirst_fix_three (lit mid tail : String) (h : capFirst lit = lit)
    (hne : lit.data ≠ []) :
    capFirst (lit ++ mid ++ tail) = lit ++ mid ++ tail := by
  have h1 : (lit ++ mid).data ≠ [] := by
    rw [strData_append]
    intro hx
    exact hne (List.append_eq_nil.mp hx).1
  rw [capFirst_append _ _ h1, capFirst_append _ _ hne, h]

/-- Every result of the `BaseType.parse` wrapper is structured. -/
theorem pyParseWrap_structured (r : Except String Value) :
    StructuredResult (pyParseWrap r) := by
  match r with
  | .ok v => exact Or.inl ⟨v, rfl⟩
  | .error e =>
    refine Or.inr ⟨capFirst (if e = "" then "Exception()" else e), rfl, ?_, ?_⟩
    · by_cases he : e = ""
      · rw [he]
        decide
      · rw [if_neg he]
        match e, he with
        | ⟨[]⟩, he => exact absurd rfl he
        | ⟨c :: cs⟩, _ =>
          show (⟨c.toUpper :: cs⟩ : String) ≠ ⟨[]⟩
          intro hx
          exact List.noConfusion (congrArg String.data hx)
    · by_cases he : e = ""
      · rw [he]
        decide
      · rw [if_neg he]
        match e, he with
        | ⟨[]⟩, he => exact absurd rfl he
        | ⟨c :: cs⟩, _ =>
          show firstNotLower ⟨c.toUpper :: cs⟩ = true
          unfold firstNotLower
          simp [toUpper_not_lower]

/-- Every result of the public `parse` entry point is structured. -/
theorem parseTop_structured (now : PyDateTime) (t : TyName) (s : String)
    (c : Choices) : StructuredResult (parseTop now t s c) :=
  pyParseWrap_structured _

/-- The fail-fast loop surfaces the first failing element's exception. -/
theorem exceptMapList_first_error (f : Value → Except String Value)
    (pre post : List Value) (b : Value) (e : String)
    (hpre : ∀ v ∈ pre, ∃ x, f v = .ok x) (hb : f b = .error e) :
    exceptMapList f (pre ++ b :: post) = .error e := by
  induction pre with
  | nil =>
    simp only [List.nil_append, exceptMapList, hb]
  | cons a rest ih =>
    obtain ⟨x, hx⟩ := hpre a (List.mem_cons_self a rest)
    have hrest : ∀ v ∈ rest, ∃ y, f v = .ok y := fun v hv =>
      hpre v (List.mem_cons_of_mem a hv)
    have ih' : exceptMapList f (rest.append (b :: post)) = Except.error e := ih hrest
    simp only [List.cons_append, exceptMapList, hx, ih']

/-- Applying a `relativedelta` that only sets absolute time-of-day fields
replaces exactly those fields of a well-formed datetime. -/
theorem dtAddRel_abs_time (res : PyDateTime) (hv : res.Valid)
    (oh om os ou : Option Nat)
    (hh : oh.getD res.hour ≤ 23) (hm : om.getD res.minute ≤ 59)
    (hs : os.getD res.second ≤ 59) (hu : ou.getD res.microsecond ≤ 999999) :
    dtAddRel res { hour := oh, minute := om, second := os, microsecond := ou } =
      .ok ⟨res.year, res.month, res.day, oh.getD res.hour, om.getD res.minute,
        os.getD res.second, ou.getD res.microsecond⟩ := by
  obtain ⟨hy1, hy2, hmm1, hmm2, hd1, hd2, _, _, _, _⟩ := hv
  simp only [dtAddRel, Option.getD_none]
  norm_num
  rw [if_neg (by omega), if_neg (by omega), if_neg (by omega), if_neg (by omega),
      if_neg (by omega), if_neg (by omega), if_neg (by omega)]
  rw [inf_eq_right.mpr hd2]
  rfl

/-- C3 (amended): in a relative clause `<field>=<N>`, the `=` operator is
rejected for `week` and for the weekday fields; for `year`, `month` and
`day` it is accepted only with N > 0 (N = 0 raises `Can't set ...`); but
for the time-of-day fields `hour`, `minute`, `second` and `microsecond`
the `=` operator is accepted and sets the field absolutely, with no
positivity check — it is not an error. -/
theorem claim3_eq_operator_fields :
    (∀ res : PyDateTime, relClause res "week=3"
        = .error "'=' not supported for 'week'")
    ∧ (∀ res : PyDateTime, relClause res "mond=1"
        = .error "'=' not supported for 'mond'")
    ∧ (∀ res : PyDateTime, relClause res "year=0" = .error "Can't set 'year' to '0'")
    ∧ (∀ res : PyDateTime, relClause res "month=0" = .error "Can't set 'month' to '0'")
    ∧ (∀ res : PyDateTime, relClause res "day=0" = .error "Can't set 'day' to '0'")
    ∧ parseTop nowJan15 .datetime "year=2020" []
        = (some (.dt ⟨2020, 1, 15, 10, 0, 0, 0⟩), none)
    ∧ (∀ res : PyDateTime, res.Valid → relClause res "hour=5" = .ok { res with hour := 5 })
    ∧ (∀ res : PyDateTime, res.Valid →
        relClause res "minute=0" = .ok { res with minute := 0 })
    ∧ (∀ res : PyDateTime, res.Valid →
        relClause res "second=59" = .ok { res with second := 59 })
    ∧ (∀ res : PyDateTime, res.Valid →
        relClause res "microsecond=7" = .ok { res with microsecond := 7 })
    ∧ parseTop nowJan15 .datetime "hour=5" []
        = (some (.dt ⟨2024, 1, 15, 5, 0, 0, 0⟩), none) := by
  refine ⟨fun res => rfl, fun res => rfl, fun res => rfl, fun res => rfl,
    fun res => rfl, rfl, ?_, ?_, ?_, ?_, rfl⟩
  · intro res hv
    obtain ⟨-, -, -, -, -, -, -, hm, hs, hu⟩ := id hv
    exact dtAddRel_abs_time res hv (some 5) none none none (by simp)
      (by simpa using hm) (by simpa using hs) (by simpa using hu)
  · intro res hv
    obtain ⟨-, -, -, -, -, -, hh, -, hs, hu⟩ := id hv
    exact dtAddRel_abs_time res hv none (some 0) none none (by simpa using hh)
      (by simp) (by simpa using hs) (by simpa using hu)
  · intro res hv
    obtain ⟨-, -, -, -, -, -, hh, hm, -, hu⟩ := id hv
    exact dtAddRel_abs_time res hv none none (some 59) none (by simpa using hh)
      (by simpa using hm) (by simp) (by simpa using hu)
  · intro res hv
    obtain ⟨-, -, -, -, -, -, hh, hm, hs, -⟩ := id hv
    exact dtAddRel_abs_time res hv none none none (some 7) (by simpa using hh)
      (by simpa using hm) (by simpa using hs) (by simp)

/-- C3 counterexample: the claim says `=` on an hour field produces an
error; in fact `"hour=5"` parses successfully and sets the hour. -/
theorem claim3_counterexample :
    parseTop nowJan15 .datetime "hour=5" []
        = (some (.dt ⟨2024, 1, 15, 5, 0, 0, 0⟩), none)
    ∧ ∀ e : String, parseTop nowJan15 .datetime "hour=5" [] ≠ (none, some e) := by
  refine ⟨rfl, fun e h => ?_⟩
  have h' : ((some (Value.dt ⟨2024, 1, 15, 5, 0, 0, 0⟩) : Option Value),
      (none : Option String)) = (none, some e) := h
  simp at h'

/-- C3 witness: the generic time-of-day conjuncts applied at the concrete
instant 2024-01-15 10:00. -/
theorem claim3_witness :
    relClause nowJan15 "hour=5" = .ok ⟨2024, 1, 15, 5, 0, 0, 0⟩
    ∧ relClause nowJan15 "minute=0" = .ok ⟨2024, 1, 15, 10, 0, 0, 0⟩ := by
  have hv : nowJan15.Valid := by
    refine ⟨?_, ?_, ?_, ?_, ?_, ?_, ?_, ?_, ?_, ?_⟩ <;> decide
  exact ⟨(claim3_eq_operator_fields.2.2.2.2.2.2.1) nowJan15 hv,
    (claim3_eq_operator_fields.2.2.2.2.2.2.2.1) nowJan15 hv⟩

/-- C4 counterexample: the error message for a missing separator is the
source's misspelt `Missing seperator '|'`, not the claimed
`Missing separator '|'`. -/
theorem claim4_counterexample :
    parseTop nowJan15 .jsonfield "age25" [] = (none, some "Missing seperator '|'")
    ∧ "Missing seperator '|'" ≠ "Missing separator '|'" := ⟨rfl, by decide⟩

/-- C4 (amended): the json field-compound parse splits on the first `|`
and pairs the field with the decoded json value; no `|` anywhere yields
exactly `Missing seperator '|'` (sic, as spelt in the source), an empty
field name yields `Invalid field name`, and an undecodable remainder
yields `Invalid JSON value`; `age|25` parses to the pair
`("age", 25)`. -/
theorem claim4_jsonfield_compound :
    (∀ s : String, (pyStrip s).data.contains '|' = false →
      ∀ now : PyDateTime, parseTop now .jsonfield s []
        = (none, some "Missing seperator '|'"))
    ∧ parseTop nowJan15 .jsonfield "|25" [] = (none, some "Invalid field name")
    ∧ parseTop nowJan15 .jsonfield "age|not-json" [] = (none, some "Invalid JSON value")
    ∧ parseTop nowJan15 .jsonfield "age|25" []
        = (some (.list [.str "age", .num ⟨25, 1⟩]), none) := by
  refine ⟨?_, rfl, rfl, rfl⟩
  intro s h now
  show pyParseWrap (jsonFieldParse (Value.str s)) = (none, some "Missing seperator '|'")
  simp only [jsonFieldParse, h]
  rfl

/-- C4 witness: the missing-separator conjunct at the concrete input
`age25`. -/
theorem claim4_witness :
    parseTop nowJan15 .jsonfield "age25" [] = (none, some "Missing seperator '|'") :=
  claim4_jsonfield_compound.1 "age25" rfl nowJan15

/-- C8 counterexample: with "now" on Monday 2024-01-15 10:00, the
expression `mon+1` does not resolve to the following Monday — `mon`
matches neither `mont` nor `mond` in the prefix table, so the clause is
rejected with `Unrecognized field 'mon'`. -/
theorem claim8_counterexample :
    parseTop nowJan15 .datetime "mon+1" [] = (none, some "Unrecognized field 'mon'")
    ∧ parseTop nowJan15 .datetime "mon+1" []
        ≠ (some (.dt ⟨2024, 1, 22, 10, 0, 0, 0⟩), none) := by
  refine ⟨rfl, fun h => ?_⟩
  have h' : ((none : Option Value), some "Unrecognized field 'mon'")
      = (some (Value.dt ⟨2024, 1, 22, 10, 0, 0, 0⟩), (none : Option String)) := h
  simp at h'

/-- C8 (amended): Monday's clause key is `mond` (`mon+1` is an
unrecognized-field error).  On a Monday, `mond+1` resolves to the same
day and `mond+2` to the Monday 7 days later — `<weekday>+N` goes to the
Nth next occurrence counting the current day when it already falls on
that weekday; `tue+1` moves one day forward.  The `-` direction of the
weekday-relative branch is effectively reachable only for `mond`
(`mond-1` stays on the same Monday, `mond-2` goes 7 days back): for the
recognised three-letter weekday names, dateutil itself parses
`<weekday>-<N>` first — the dash is a skippable jump token and the bare
number becomes the day of month — so `sun-1` is consumed unambiguously
by the absolute-date branch and yields the 1st of the current month at
midnight, never reaching the weekday-relative branch. -/
theorem claim8_weekday_clauses :
    parseTop nowJan15 .datetime "mond+1" []
        = (some (.dt ⟨2024, 1, 15, 10, 0, 0, 0⟩), none)
    ∧ parseTop nowJan15 .datetime "mond+2" []
        = (some (.dt ⟨2024, 1, 22, 10, 0, 0, 0⟩), none)
    ∧ parseTop nowJan15 .datetime "mond-1" []
        = (some (.dt ⟨2024, 1, 15, 10, 0, 0, 0⟩), none)
    ∧ parseTop nowJan15 .datetime "mond-2" []
        = (some (.dt ⟨2024, 1, 8, 10, 0, 0, 0⟩), none)
    ∧ parseTop nowJan15 .datetime "tue+1" []
        = (some (.dt ⟨2024, 1, 16, 10, 0, 0, 0⟩), none)
    ∧ parseTop nowJan15 .datetime "sun-1" []
        = (some (.dt ⟨2024, 1, 1, 0, 0, 0, 0⟩), none)
    ∧ parseTop nowJan15 .datetime "mon+1" []
        = (none, some "Unrecognized field 'mon'") :=
  ⟨rfl, rfl, rfl, rfl, rfl, rfl, rfl⟩

/-- C9: the sample filter of the numeric format hint applies `abs` to the
boolean comparison `row[name] > 0.0001`, so it keeps exactly the values
strictly greater than 0.0001: in the claim's example only 1.2345 and
2.3456 survive, but the negative value -2.5 — whose magnitude exceeds the
cutoff and which the claim says is retained — is dropped, and so is the
boundary value 0.0001 itself. -/
theorem claim9_hint_filter :
    formatHintNums [some ⟨5, 100000⟩, some ⟨12345, 10000⟩, some ⟨23456, 10000⟩]
        = [⟨12345, 10000⟩, ⟨23456, 10000⟩]
    ∧ formatHintNums [some ⟨5, 100000⟩, some ⟨12345, 10000⟩, some ⟨23456, 10000⟩,
        some ⟨-5, 2⟩] = [⟨12345, 10000⟩, ⟨23456, 10000⟩]
    ∧ formatHintNums [some ⟨-5, 2⟩] = []
    ∧ formatHintNums [some ⟨1, 10000⟩] = [] := ⟨rfl, rfl, rfl, rfl⟩

/-- C1 (amended): `parse` and `parse_lookup` are total with structured
results — a success, or `None` with a non-empty message whose first
letter is not lowercase; `parse_lookup` answers `Bad lookup` for unknown
lookup names and otherwise routes to the target type's `parse`,
discarding choices the lookup does not keep.  `format_lookup`, however,
indexes the lookup table without a membership check: for a known lookup
it applies the target formatter, but for an unknown lookup name it
raises `KeyError` instead of returning a structured error. -/
theorem claim1_entry_points :
    (∀ (now : PyDateTime) (t : TyName) (s : String) (c : Choices),
      StructuredResult (parseTop now t s c))
    ∧ (∀ (now : PyDateTime) (t : TyName) (lookup s : String) (c : Choices),
      StructuredResult (parseLookupTop now t lookup s c))
    ∧ (∀ (now : PyDateTime) (t : TyName) (lookup s : String) (c : Choices),
      lookupFind (lookupsOf t) lookup = none →
      parseLookupTop now t lookup s c = (none, some "Bad lookup"))
    ∧ (∀ (now : PyDateTime) (t : TyName) (lookup s : String) (c : Choices)
        (pretty : String) (target : TyName) (keep : Bool),
      lookupFind (lookupsOf t) lookup = some (pretty, target, keep) →
      parseLookupTop now t lookup s c = parseTop now target s (if keep then c else []))
    ∧ (∀ (t : TyName) (lookup : String) (v : Value) (c : Choices),
      lookupFind (lookupsOf t) lookup = none →
      formatLookupTop t lookup v c = .error ("KeyError: '" ++ lookup ++ "'"))
    ∧ (∀ (t : TyName) (lookup : String) (v : Value) (c : Choices)
        (pretty : String) (target : TyName) (keep : Bool),
      lookupFind (lookupsOf t) lookup = some (pretty, target, keep) →
      ∀ f, getFormatter target (if keep then c else []) = .ok f →
      formatLookupTop t lookup v c = f v) := by
  refine ⟨fun now t s c => parseTop_structured now t s c, ?_, ?_, ?_, ?_, ?_⟩
  · intro now t lookup s c
    cases h : lookupFind (lookupsOf t) lookup with
    | none =>
      have hr : parseLookupTop now t lookup s c = (none, some "Bad lookup") := by
        unfold parseLookupTop
        rw [h]
      rw [hr]
      exact Or.inr ⟨"Bad lookup", rfl, by decide, by decide⟩
    | some info =>
      obtain ⟨p, target, keep⟩ := info
      have hr : parseLookupTop now t lookup s c
          = parseTop now target s (if keep then c else []) := by
        unfold parseLookupTop
        rw [h]
      rw [hr]
      exact parseTop_structured _ _ _ _
  · intro now t lookup s c h
    unfold parseLookupTop
    rw [h]
  · intro now t lookup s c pretty target keep h
    unfold parseLookupTop
    rw [h]
  · intro t lookup v c h
    unfold formatLookupTop
    rw [h]
  · intro t lookup v c pretty target keep h f hf
    unfold formatLookupTop
    rw [h]
    show (match getFormatter target (if keep then c else []) with
      | Except.error e => Except.error e
      | Except.ok f2 => f2 v) = f v
    rw [hf]

/-- C1 counterexample: `format_lookup` with an unknown lookup name does
raise — on the string type and lookup name `zzz` it escapes with a
`KeyError` rather than returning any value. -/
theorem claim1_counterexample :
    formatLookupTop .string "zzz" (.str "x") [] = .error "KeyError: 'zzz'"
    ∧ ∀ r : Value, formatLookupTop .string "zzz" (.str "x") [] ≠ .ok r := by
  refine ⟨rfl, fun r h => ?_⟩
  have h' : (Except.error "KeyError: 'zzz'" : Except String Value) = .ok r := h
  simp at h'

/-- C1 witness: the structured-result and routing conjuncts applied at
concrete inputs, and the `KeyError` raise at an unknown lookup. -/
theorem claim1_witness :
    StructuredResult (parseTop nowJan15 .number "bad" [])
    ∧ parseLookupTop nowJan15 .string "zzz" "x" [] = (none, some "Bad lookup")
    ∧ parseLookupTop nowJan15 .number "gt" "5" [(.str "a", "A")]
        = parseTop nowJan15 .number "5" [(.str "a", "A")]
    ∧ formatLookupTop .number "zzz" (.num ⟨1, 1⟩) [] = .error "KeyError: 'zzz'" :=
  ⟨claim1_entry_points.1 nowJan15 .number "bad" [],
   claim1_entry_points.2.2.1 nowJan15 .string "zzz" "x" [] rfl,
   claim1_entry_points.2.2.2.1 nowJan15 .number "gt" "5" [(.str "a", "A")]
     ">" .number true rfl,
   claim1_entry_points.2.2.2.2.1 .number "zzz" (.num ⟨1, 1⟩) [] rfl⟩

/-- C2 (amended): when all four day-first/year-first interpretations of
a clause succeed but disagree, `_unambiguous_date_parse` raises
`Exception("Ambiguous value")`, which its `except ParserError` clause
does NOT catch; the exception escapes and the caller receives the
structured error `Ambiguous value` — the branch does not fall through to
the relative-clause branch.  Fall-through happens exactly when an
attempt raises `ParserError` (the evaluator then tries the relative
branch, whose last resort is `Unrecognized clause '<clause>'`). -/
theorem claim2_ambiguity_surfaced :
    (∀ (g : DateGuess) (s : String) (d r1 r2 r3 r4 : PyDateTime),
      g.run false false s d = .ok r1 → g.run true false s d = .ok r2 →
      g.run false true s d = .ok r3 → g.run true true s d = .ok r4 →
      ¬(r2 = r1 ∧ r3 = r1 ∧ r4 = r1) →
      unambiguousParse g s d = .error "Ambiguous value")
    ∧ (∀ (g : DateGuess) (s : String) (d : PyDateTime) (e : String),
      g.run false false s d = .error e → unambiguousParse g s d = .ok none)
    ∧ (∀ (g : DateGuess) (now res : PyDateTime) (clause e : String),
      pyLower clause ≠ "now" → pyLower clause ≠ "today" →
      branch3Match (pyLower clause).data = false →
      unambiguousParse g (pyLower clause) (truncMidnight res) = .error e →
      evalClause g now res clause = .error e)
    ∧ (∀ (g : DateGuess) (now res : PyDateTime) (clause : String),
      pyLower clause ≠ "now" → pyLower clause ≠ "today" →
      branch3Match (pyLower clause).data = false →
      unambiguousParse g (pyLower clause) (truncMidnight res) = .ok none →
      evalClause g now res clause = relClause res (pyLower clause))
    ∧ parseTop nowJan15 .datetime "1/2/3" [] = (none, some "Ambiguous value") := by
  refine ⟨?_, ?_, ?_, ?_, rfl⟩
  · intro g s d r1 r2 r3 r4 h1 h2 h3 h4 hne
    unfold unambiguousParse
    rw [h1, h2, h3, h4]
    show (if r2 = r1 ∧ r3 = r1 ∧ r4 = r1 then Except.ok (some r1)
      else Except.error "Ambiguous value") = Except.error "Ambiguous value"
    rw [if_neg hne]
  · intro g s d e h
    unfold unambiguousParse
    rw [h]
  · intro g now res clause e hnow htoday h3 hu
    simp only [evalClause]
    rw [show (pyLower clause == "now") = false from beq_eq_false_iff_ne.mpr hnow,
      show (pyLower clause == "today") = false from beq_eq_false_iff_ne.mpr htoday,
      h3, hu]
    rfl
  · intro g now res clause hnow htoday h3 hu
    simp only [evalClause]
    rw [show (pyLower clause == "now") = false from beq_eq_false_iff_ne.mpr hnow,
      show (pyLower clause == "today") = false from beq_eq_false_iff_ne.mpr htoday,
      h3, hu]
    rfl

/-- C2 counterexample: the ambiguous clause `1/2/3` is surfaced to the
caller as the error `Ambiguous value` — not silently absorbed, and not
reported as `Unrecognized clause '1/2/3'`. -/
theorem claim2_counterexample :
    parseTop nowJan15 .datetime "1/2/3" [] = (none, some "Ambiguous value")
    ∧ parseTop nowJan15 .datetime "1/2/3" []
        ≠ (none, some "Unrecognized clause '1/2/3'") := by
  refine ⟨rfl, fun h => ?_⟩
  have h' : ((none : Option Value), some "Ambiguous value")
      = ((none : Option Value), some "Unrecognized clause '1/2/3'") := h
  have h2 := Option.some.inj (congrArg Prod.snd h')
  exact absurd h2 (by decide)

/-- C2 witness: the disagreement conjunct applied to the modelled
dateutil guesser on `1/2/3`, whose four interpretations are the four
distinct dates 2003-01-02, 2003-02-01, 2001-02-03 and 2001-03-02. -/
theorem claim2_witness :
    unambiguousParse guessModel "1/2/3" (truncMidnight nowJan15)
      = .error "Ambiguous value" :=
  claim2_ambiguity_surfaced.1 guessModel "1/2/3" (truncMidnight nowJan15)
    ⟨2003, 1, 2, 0, 0, 0, 0⟩ ⟨2003, 2, 1, 0, 0, 0, 0⟩
    ⟨2001, 2, 3, 0, 0, 0, 0⟩ ⟨2001, 3, 2, 0, 0, 0, 0⟩
    rfl rfl rfl rfl (by decide)

/-- Element types of the registered array descriptors are scalar
descriptors. -/
theorem elementTypeOf_scalar {t et : TyName} (h : elementTypeOf t = some et) :
    elementTypeOf et = none := by
  cases t <;> first
    | exact Option.noConfusion h
    | (obtain rfl := Option.some.inj h; rfl)

/-- C5: array parse requires valid json describing a list (anything else
is a structured error) and is fail-fast — with every element before `b`
parsing successfully and `b` raising `e`, the whole array parse of any
registered array type aborts with exactly `e` (capitalised by the shared
`parse` wrapper), and when `b` is the string `s` this is exactly the
result of parsing `s` directly against the element type. -/
theorem claim5_array_fail_fast :
    (∀ (now : PyDateTime) (t et : TyName) (text : String) (choices : Choices)
      (pre post : List Value) (b : Value) (e : String),
      elementTypeOf t = some et →
      pyJsonLoads (.str text) = .ok (.list (pre ++ b :: post)) →
      (∀ v ∈ pre, ∃ x, parseRawScalar now et v choices = .ok x) →
      parseRawScalar now et b choices = .error e →
      parseTop now t text choices = pyParseWrap (.error e)
      ∧ ∀ s : String, b = .str s →
          parseTop now t text choices = parseTop now et s choices)
    ∧ parseTop nowJan15 .numberarray "3" [] = (none, some "Expected a list")
    ∧ parseTop nowJan15 .numberarray "notjson" [] = (none, some "Invalid JSON value") := by
  refine ⟨?_, rfl, rfl⟩
  intro now t et text choices pre post b e ht hj hpre hb
  have harr : parseTop now t text choices = pyParseWrap (.error e) := by
    have step : parseRaw now t (.str text) choices
        = arrayParseWith (fun v => parseRawScalar now et v choices) (.str text) := by
      unfold parseRaw
      rw [ht]
    unfold parseTop
    rw [step]
    unfold arrayParseWith
    rw [hj]
    show pyParseWrap
      (match exceptMapList (fun v => parseRawScalar now et v choices) (pre ++ b :: post) with
        | .error err => .error err
        | .ok rs => .ok (.list rs)) = pyParseWrap (.error e)
    rw [exceptMapList_first_error _ pre post b e hpre hb]
  refine ⟨harr, fun s hs => ?_⟩
  subst hs
  have helt : parseTop now et s choices = pyParseWrap (.error e) := by
    have step : parseRaw now et (.str s) choices = parseRawScalar now et (.str s) choices := by
      unfold parseRaw
      rw [elementTypeOf_scalar ht]
    unfold parseTop
    rw [step, hb]
  rw [harr, helt]

/-- C5 witness: parsing `["1","bad","3"]` as a number array surfaces
exactly the error of parsing `"bad"` as a number. -/
theorem claim5_witness :
    parseTop nowJan15 .numberarray "[\"1\",\"bad\",\"3\"]" []
      = (none, some "Could not convert string to float: 'bad'")
    ∧ parseTop nowJan15 .numberarray "[\"1\",\"bad\",\"3\"]" []
      = parseTop nowJan15 .number "bad" [] := by
  have h := claim5_array_fail_fast.1 nowJan15 .numberarray .number
    "[\"1\",\"bad\",\"3\"]" [] [.str "1"] [.str "3"] (.str "bad")
    "could not convert string to float: 'bad'" rfl rfl
    (by
      intro v hv
      have hv' : v = Value.str "1" := by
        cases hv with
        | head => rfl
        | tail _ h2 => cases h2
      subst hv'
      exact ⟨.num ⟨1, 1⟩, rfl⟩)
    rfl
  exact ⟨h.1, h.2 "bad" rfl⟩

/-- Membership of a nonempty-list check used below. -/
theorem isEmpty_false_of_ne_nil {α : Type} {l : List α} (h : l ≠ []) :
    l.isEmpty = false := by
  cases l with
  | nil => exact absurd rfl h
  | cons a t => rfl

/-- C6: for the registered choice-backed types with a non-empty choice
list, formatting is lenient — an unmapped raw value is returned
unchanged, a mapped one becomes its label — while parsing is strict: an
unmapped label is exactly the error `Unknown choice '<label>'`, and a
mapped label returns the raw value the inverted choice dict assigns
(later pairs overriding earlier ones). -/
theorem claim6_choice_asymmetry :
    ∀ t : TyName, t = .stringchoice ∨ t = .numberchoice →
    ∀ choices : Choices, choices ≠ [] →
      (∀ v : Value, pyDictGetV choices v = none →
        ∃ f, getFormatter t choices = .ok f ∧ f v = .ok v)
      ∧ (∀ (v : Value) (lbl : String), pyDictGetV choices v = some lbl →
        ∃ f, getFormatter t choices = .ok f ∧ f v = .ok (.str lbl))
      ∧ (∀ (now : PyDateTime) (s : String), invGet choices (.str s) = none →
        parseTop now t s choices = (none, some ("Unknown choice '" ++ s ++ "'")))
      ∧ (∀ (now : PyDateTime) (s : String) (raw : Value),
        invGet choices (.str s) = some raw →
        parseTop now t s choices = (some raw, none)) := by
  intro t ht choices hne
  have hemp : List.isEmpty choices = false := isEmpty_false_of_ne_nil hne
  have hfmt : getFormatter t choices = .ok (choiceFormatFn choices) := by
    cases ht with
    | inl h =>
      subst h
      show (if List.isEmpty choices then Except.error "AssertionError()"
        else Except.ok (choiceFormatFn choices)) = Except.ok (choiceFormatFn choices)
      rw [hemp]
      rfl
    | inr h =>
      subst h
      show (if List.isEmpty choices then Except.error "AssertionError()"
        else Except.ok (choiceFormatFn choices)) = Except.ok (choiceFormatFn choices)
      rw [hemp]
      rfl
  have hparse : ∀ (now : PyDateTime) (s : String),
      parseTop now t s choices = pyParseWrap (choiceParseRaw (.str s) choices) := by
    intro now s
    cases ht with
    | inl h =>
      subst h
      show pyParseWrap (if List.isEmpty choices then Except.error "AssertionError()"
        else choiceParseRaw (.str s) choices) = _
      rw [hemp]
      rfl
    | inr h =>
      subst h
      show pyParseWrap (if List.isEmpty choices then Except.error "AssertionError()"
        else choiceParseRaw (.str s) choices) = _
      rw [hemp]
      rfl
  refine ⟨?_, ?_, ?_, ?_⟩
  · intro v hv
    refine ⟨choiceFormatFn choices, hfmt, ?_⟩
    unfold choiceFormatFn
    rw [hv]
  · intro v lbl hv
    refine ⟨choiceFormatFn choices, hfmt, ?_⟩
    unfold choiceFormatFn
    rw [hv]
  · intro now s hv
    rw [hparse now s]
    unfold choiceParseRaw
    rw [hv]
    show (none, some (capFirst (if ("Unknown choice '" ++ pyStrV (.str s) ++ "'" : String) = ""
      then "Exception()" else "Unknown choice '" ++ pyStrV (.str s) ++ "'"))) = _
    have hnonempty : ("Unknown choice '" ++ pyStrV (.str s) ++ "'" : String) ≠ "" := by
      intro hx
      have hd := congrArg String.data hx
      rw [strData_append, strData_append] at hd
      simp at hd
    rw [if_neg hnonempty]
    rw [show pyStrV (.str s) = s from rfl]
    rw [capFirst_fix_three "Unknown choice '" s "'" rfl (by decide)]
  · intro now s raw hv
    rw [hparse now s]
    unfold choiceParseRaw
    rw [hv]
    rfl

/-- C6 witness: one concrete choice list, exercising the lenient
formatter on an unmapped value and the strict parse on both a mapped and
an unmapped label. -/
theorem claim6_witness :
    (∃ f, getFormatter .stringchoice [(.str "a", "A")] = .ok f
      ∧ f (.str "zz") = .ok (.str "zz"))
    ∧ parseTop nowJan15 .stringchoice "Zz" [(.str "a", "A")]
        = (none, some "Unknown choice 'Zz'")
    ∧ parseTop nowJan15 .stringchoice "A" [(.str "a", "A")]
        = (some (.str "a"), none) := by
  have h := claim6_choice_asymmetry .stringchoice (Or.inl rfl)
    [(.str "a", "A")] (by simp)
  exact ⟨h.1 (.str "zz") rfl, h.2.2.1 nowJan15 "Zz" rfl, h.2.2.2 nowJan15 "A" (.str "a") rfl⟩

/-- C7 (amended): every registered type EXCEPT `IsNullType` itself has an
`is_null` lookup, and on all of them it behaves identically: it routes to
the dedicated tri-state type with the keep-choices flag off, so
`parse_lookup` with `is_null` equals the tri-state type's own parse with
the field's choices discarded; the tri-state type maps the labels
`IsNull`/`NotNull` to `True`/`False` and formats `None`, `True`, `False`
through its fixed choice list.  `IsNullType` is registered too but its
lookup table holds only `equals`. -/
theorem claim7_is_null_lookup :
    (∀ t : TyName, t ∈ TYPES.map Prod.snd)
    ∧ (∀ t : TyName, t ≠ .isnull →
        lookupFind (lookupsOf t) "is_null" = some ("is null", .isnull, false))
    ∧ (∀ t : TyName, t ≠ .isnull → ∀ (now : PyDateTime) (s : String) (c : Choices),
        parseLookupTop now t "is_null" s c = parseTop now .isnull s [])
    ∧ parseTop nowJan15 .isnull "IsNull" [] = (some (.bool true), none)
    ∧ parseTop nowJan15 .isnull "NotNull" [] = (some (.bool false), none)
    ∧ (∃ f, getFormatter .isnull [] = .ok f ∧ f .null = .ok (.str "IsNull")
        ∧ f (.bool true) = .ok (.str "IsNull")
        ∧ f (.bool false) = .ok (.str "NotNull")) := by
  refine ⟨?_, ?_, ?_, rfl, rfl, ⟨choiceFormatFn isnullChoices, rfl, rfl, rfl, rfl⟩⟩
  · intro t
    cases t <;> decide
  · intro t ht
    cases t <;> first | rfl | exact absurd rfl ht
  · intro t ht
    cases t <;> first | (intro now s c; rfl) | exact absurd rfl ht

/-- C7 counterexample: `IsNullType` is itself a registered type, and its
lookup table has no `is_null` entry — so not every registered type has
one. -/
theorem claim7_counterexample :
    ("isnull", TyName.isnull) ∈ TYPES
    ∧ lookupFind (lookupsOf .isnull) "is_null" = none := ⟨by decide, rfl⟩

/-- C7 witness: the lookup row and the routing equation at the string
type, with a choice list that is discarded. -/
theorem claim7_witness :
    lookupFind (lookupsOf .string) "is_null" = some ("is null", .isnull, false)
    ∧ parseLookupTop nowJan15 .string "is_null" "IsNull" [(.str "a", "A")]
        = parseTop nowJan15 .isnull "IsNull" [] :=
  ⟨claim7_is_null_lookup.2.1 .string (by decide),
   claim7_is_null_lookup.2.2.1 .string (by decide) nowJan15 "IsNull" [(.str "a", "A")]⟩

/-- C10 (amended): the tri-state choice list maps both `None` and `True`
to the label `IsNull`; parse inverts it with later pairs overriding
earlier ones, so the label `IsNull` parses to `True` and the tri-state
parse can never return `None`, while formatting `None` or `True` both
produce `IsNull`.  Consequently `parse_lookup` of `is_null` on input
`IsNull` yields `True` for every registered type except `IsNullType`
itself, whose lookup table has no `is_null` entry (it answers
`Bad lookup`). -/
theorem claim10_isnull_parse :
    (∀ (now : PyDateTime) (t : TyName) (c : Choices), t ≠ .isnull →
      parseLookupTop now t "is_null" "IsNull" c = (some (.bool true), none))
    ∧ invGet isnullChoices (.str "IsNull") = some (.bool true)
    ∧ (∀ s : String, parseTop nowJan15 .isnull s [] ≠ (some .null, none))
    ∧ (∃ f, getFormatter .isnull [] = .ok f ∧ f .null = .ok (.str "IsNull")
        ∧ f (.bool true) = .ok (.str "IsNull")) := by
  refine ⟨?_, rfl, ?_, ⟨choiceFormatFn isnullChoices, rfl, rfl, rfl⟩⟩
  · intro now t c ht
    cases t <;> first | rfl | exact absurd rfl ht
  · intro s h
    by_cases h1 : "NotNull" = s
    · subst h1
      have h' : ((some (Value.bool false) : Option Value), (none : Option String))
          = (some Value.null, none) := h
      simp at h'
    · by_cases h2 : "IsNull" = s
      · subst h2
        have h' : ((some (Value.bool true) : Option Value), (none : Option String))
            = (some Value.null, none) := h
        simp at h'
      · have e1 : ("NotNull" == s) = false := beq_eq_false_iff_ne.mpr h1
        have e2 : ("IsNull" == s) = false := beq_eq_false_iff_ne.mpr h2
        have hfind : invGet isnullChoices (.str s) = none := by
          simp [invGet, isnullChoices, pyEqV, List.find?, e1, e2]
        have h' : pyParseWrap (choiceParseRaw (.str s) isnullChoices)
            = (some Value.null, none) := h
        unfold choiceParseRaw at h'
        rw [hfind] at h'
        simp [pyParseWrap] at h'

/-- C10 counterexample: on `IsNullType` itself, `parse_lookup` of
`is_null` with input `IsNull` does not yield `True` — the lookup is
absent and the structured `Bad lookup` error comes back. -/
theorem claim10_counterexample :
    parseLookupTop nowJan15 .isnull "is_null" "IsNull" [] = (none, some "Bad lookup")
    ∧ parseLookupTop nowJan15 .isnull "is_null" "IsNull" []
        ≠ (some (.bool true), none) := by
  refine ⟨rfl, fun h => ?_⟩
  have h' : ((none : Option Value), some "Bad lookup")
      = (some (Value.bool true), (none : Option String)) := h
  simp at h'

/-- C10 witness: the universal conjunct applied at the string type with a
field-specific choice list, which the lookup discards. -/
theorem claim10_witness :
    parseLookupTop nowJan15 .string "is_null" "IsNull" [(.str "x", "IsNull")]
      = (some (.bool true), none) :=
  claim10_isnull_parse.1 nowJan15 .string [(.str "x", "IsNull")] (by decide)
